import Mathlib

/-!
Verification of the Localize repository's core subsystems against its
natural-language specification.  The definitions below are a shallow
embedding of the Python source:

* `src/src/modules/ocr.py` — the text-language classifier
  (`OCRProcessor.detect_language`, `OCRProcessor.is_missing_translation`,
  `COMMON_HOSPITALITY_TERMS`, `_load_allowed_terms`);
* `src/src/modules/browser.py` — link discovery
  (`BrowserController._discover_page_links`) and modal discovery
  (`discover_and_process_modals`, `_close_modal_or_go_back`).

External capabilities (the langdetect primitive, the Playwright page) are
modelled as explicit environment records of total functions; stateful code
is modelled by explicit state passing.  Python strings are modelled as Lean
`String`s with character-wise `lower` and whitespace `strip`.
-/

namespace Localize

/-! ## Python string primitives

`pyLower` models `str.lower()` (character-wise lowercasing), `pyStrip`
models `str.strip()` (removing leading and trailing whitespace), and
`pyNormalize` models the idiom `text.lower().strip()` used throughout
`ocr.py`. -/

/-- `str.lower()`: lowercase every character. -/
def pyLower (s : String) : String := String.mk (s.data.map Char.toLower)

/-- Remove leading and trailing whitespace from a character list. -/
def pyStripChars (cs : List Char) : List Char :=
  ((cs.dropWhile Char.isWhitespace).reverse.dropWhile Char.isWhitespace).reverse

/-- `str.strip()`: remove leading and trailing whitespace. -/
def pyStrip (s : String) : String := String.mk (pyStripChars s.data)

/-- `text.lower().strip()`, the normalization used by the classifier. -/
def pyNormalize (s : String) : String := pyStrip (pyLower s)

theorem length_dropWhile_le_local (p : Char → Bool) (l : List Char) :
    (l.dropWhile p).length ≤ l.length := by
  induction l with
  | nil => simp
  | cons a t ih =>
    by_cases h : p a
    · simp only [List.dropWhile_cons, h, if_true]
      exact Nat.le_succ_of_le ih
    · simp [List.dropWhile_cons, h]

theorem pyStripChars_length_le (cs : List Char) :
    (pyStripChars cs).length ≤ cs.length := by
  unfold pyStripChars
  calc ((cs.dropWhile Char.isWhitespace).reverse.dropWhile Char.isWhitespace).reverse.length
      = ((cs.dropWhile Char.isWhitespace).reverse.dropWhile Char.isWhitespace).length := by
        simp
    _ ≤ (cs.dropWhile Char.isWhitespace).reverse.length :=
        length_dropWhile_le_local _ _
    _ = (cs.dropWhile Char.isWhitespace).length := by simp
    _ ≤ cs.length := length_dropWhile_le_local _ _

theorem pyNormalize_length_le (s : String) :
    (pyNormalize s).length ≤ s.length := by
  unfold pyNormalize pyStrip pyLower
  show (pyStripChars (s.data.map Char.toLower)).length ≤ s.data.length
  calc (pyStripChars (s.data.map Char.toLower)).length
      ≤ (s.data.map Char.toLower).length := pyStripChars_length_le _
    _ = s.data.length := by simp

/-! ## The language-detection primitive (external collaborator)

`ocr.py` uses the `langdetect` library: `detect(text)` returns a language
tag or raises `LangDetectException`, and `get_probabilities` returns a
list of per-language probabilities.  Both are modelled as an explicit
environment of total functions (the `Except` error models
`LangDetectException`). -/

/-- One entry of the probability list returned by the detection primitive
(langdetect's `Language` object with fields `lang` and `prob`). -/
structure LangProb where
  lang : String
  prob : ℚ
deriving DecidableEq, Repr

/-- The language-detection primitive: `detect` may fail with
`LangDetectException`; `get_probabilities` yields per-language
probabilities. -/
structure LangDetector where
  detect : String → Except Unit String
  get_probabilities : String → List LangProb

/-- The configuration subset the classifier reads
(`language_detection.min_text_length`, `language_detection.min_confidence`,
and the loaded allow-list `self.allowed_terms`). -/
structure OcrConfig where
  min_text_length : Nat
  min_confidence : ℚ
  allowed_terms : List String

/-- `COMMON_HOSPITALITY_TERMS['fr']` from `ocr.py` (lines 39-49). -/
def COMMON_HOSPITALITY_TERMS_fr : List String :=
  ["code de confirmation", "check-in", "check-out", "client", "réservation",
   "suite", "standard", "confirmation", "premium", "deluxe", "basic",
   "superior", "service", "reception", "wifi", "breakfast", "all-inclusive",
   "email", "login", "password", "dashboard", "menu", "status", "ok",
   "application", "documents", "contacts", "filters", "search", "calendar",
   "profile", "settings", "notifications", "booking", "guest", "room",
   "property", "amenities", "rating", "review", "payment", "price",
   "tax", "total", "discount", "promotion", "cancel", "refund"]

/-- `COMMON_HOSPITALITY_TERMS['en']` from `ocr.py` (lines 50-54). -/
def COMMON_HOSPITALITY_TERMS_en : List String :=
  ["check-in", "check-out", "booking", "reservation", "wifi",
   "suite", "standard", "confirmation", "premium", "deluxe", "basic"]

/-- `OCRProcessor._load_allowed_terms`: the curated terms for the target
language united with the lowercased user-configured terms
(`ocr.allowed_terms`). -/
def load_allowed_terms (target_language : String) (custom_terms : List String) :
    List String :=
  (if target_language = "fr" then COMMON_HOSPITALITY_TERMS_fr
   else if target_language = "en" then COMMON_HOSPITALITY_TERMS_en
   else [])
  ++ custom_terms.map pyLower

/-- `en_prob = next((p.prob for p in probabilities if p.lang == 'en'), 0)`
applied to `probabilities = ...get_probabilities(text)` (ocr.py line 335). -/
def en_prob (det : LangDetector) (text : String) : ℚ :=
  (((det.get_probabilities text).find? (fun p => p.lang = "en")).map
    LangProb.prob).getD 0

/-- `fr_prob = next((p.prob for p in probabilities if p.lang == 'fr'), 0)`
(ocr.py line 336). -/
def fr_prob (det : LangDetector) (text : String) : ℚ :=
  (((det.get_probabilities text).find? (fun p => p.lang = "fr")).map
    LangProb.prob).getD 0

/-- `OCRProcessor.detect_language` (ocr.py lines 301-346).  Returns
`some "en"`, `some "fr"`, or `none` ("uncertain"). -/
def detect_language (cfg : OcrConfig) (det : LangDetector) (text : String) :
    Option String :=
  -- normalized_text = text.lower().strip()
  let normalized_text := pyNormalize text
  -- if len(normalized_text) < self.min_text_length: return None
  if normalized_text.length < cfg.min_text_length then none
  -- if normalized_text in self.allowed_terms: return 'fr'
  else if normalized_text ∈ cfg.allowed_terms then some "fr"
  else
    -- try: detected = detect(text) ... except LangDetectException: return None
    match det.detect text with
    | Except.error _ => none
    | Except.ok detected =>
      if detected = "en" then some "en"
      else if detected = "fr" then some "fr"
      else
        if en_prob det text > fr_prob det text ∧
            en_prob det text > cfg.min_confidence then some "en"
        else if fr_prob det text > en_prob det text ∧
            fr_prob det text > cfg.min_confidence then some "fr"
        else none

/-- `OCRProcessor.is_missing_translation` (ocr.py lines 348-375). -/
def is_missing_translation (cfg : OcrConfig) (det : LangDetector)
    (text : String) : Bool × Option String :=
  -- if len(text) < self.min_text_length: return False, None
  if text.length < cfg.min_text_length then (false, none)
  else
    let detected_language := detect_language cfg det text
    -- if not detected_language or detected_language == 'fr':
    --     return False, detected_language
    if detected_language = none ∨ detected_language = some "fr" then
      (false, detected_language)
    -- if detected_language == 'en': ...
    else if detected_language = some "en" then
      let normalized_text := pyNormalize text
      if normalized_text ∈ cfg.allowed_terms then (false, some "fr")
      else (true, some "en")
    else (false, none)

/-! ## Classifier lemmas -/

theorem is_missing_translation_eq (cfg : OcrConfig) (det : LangDetector)
    (text : String) :
    is_missing_translation cfg det text =
      if text.length < cfg.min_text_length then (false, none)
      else if detect_language cfg det text = none ∨
          detect_language cfg det text = some "fr" then
        (false, detect_language cfg det text)
      else if detect_language cfg det text = some "en" then
        (if pyNormalize text ∈ cfg.allowed_terms then (false, some "fr")
         else (true, some "en"))
      else (false, none) := rfl

theorem detect_language_probability_branch (cfg : OcrConfig)
    (det : LangDetector) (text : String) (d : String)
    (hlen : cfg.min_text_length ≤ (pyNormalize text).length)
    (hmem : pyNormalize text ∉ cfg.allowed_terms)
    (hdet : det.detect text = Except.ok d)
    (hen : d ≠ "en") (hfr : d ≠ "fr") :
    detect_language cfg det text =
      (if en_prob det text > fr_prob det text ∧
          en_prob det text > cfg.min_confidence then some "en"
       else if fr_prob det text > en_prob det text ∧
          fr_prob det text > cfg.min_confidence then some "fr"
       else none) := by
  unfold detect_language
  rw [if_neg (by omega), if_neg hmem, hdet]
  show (if d = "en" then some "en"
        else if d = "fr" then some "fr"
        else if en_prob det text > fr_prob det text ∧
            en_prob det text > cfg.min_confidence then some "en"
        else if fr_prob det text > en_prob det text ∧
            fr_prob det text > cfg.min_confidence then some "fr"
        else none) = _
  rw [if_neg hen, if_neg hfr]

/-! ## Classifier claims -/

/-- Claim C2: a text whose trimmed, lowercased form exactly matches an entry
of the allow-list and whose normalized length is at least
`min_text_length` is classified `(false, "fr")` — the target language —
overriding any detector output (the detector is universally quantified). -/
theorem C2_allowlist_override (cfg : OcrConfig) (det : LangDetector)
    (text : String)
    (hmem : pyNormalize text ∈ cfg.allowed_terms)
    (hlen : cfg.min_text_length ≤ (pyNormalize text).length) :
    is_missing_translation cfg det text = (false, some "fr") := by
  have hle := pyNormalize_length_le text
  have hdl : detect_language cfg det text = some "fr" := by
    unfold detect_language
    rw [if_neg (by omega), if_pos hmem]
  rw [is_missing_translation_eq, if_neg (by omega), hdl]
  simp

/-- Claim C2 witness: with target language `fr`, allow-list loaded from the
curated hospitality terms, and a detector that confidently answers
English, the text `"Check-in"` still yields `(false, "fr")`. -/
theorem C2_allowlist_override_witness :
    is_missing_translation ⟨4, 6/10, load_allowed_terms "fr" []⟩
      ⟨fun _ => Except.ok "en", fun _ => [⟨"en", 99/100⟩]⟩ "Check-in" =
      (false, some "fr") :=
  C2_allowlist_override _ _ _ (by decide) (by decide)

/-- Claim C3: when the detector's single best guess is neither the target
language `fr` nor the foreign-comparison language `en`, the classifier
resolves to the language with the strictly higher probability only if that
probability exceeds `min_confidence`; if neither probability exceeds the
threshold the verdict is the indeterminate `(false, none)`. -/
theorem C3_probability_fallback (cfg : OcrConfig) (det : LangDetector)
    (text : String) (d : String)
    (hlen : cfg.min_text_length ≤ (pyNormalize text).length)
    (hmem : pyNormalize text ∉ cfg.allowed_terms)
    (hdet : det.detect text = Except.ok d)
    (hen : d ≠ "en") (hfr : d ≠ "fr") :
    (detect_language cfg det text = some "en" ↔
      en_prob det text > fr_prob det text ∧
      en_prob det text > cfg.min_confidence)
    ∧ (detect_language cfg det text = some "fr" ↔
      fr_prob det text > en_prob det text ∧
      fr_prob det text > cfg.min_confidence)
    ∧ (en_prob det text ≤ cfg.min_confidence →
       fr_prob det text ≤ cfg.min_confidence →
       is_missing_translation cfg det text = (false, none)) := by
  have key := detect_language_probability_branch cfg det text d hlen hmem hdet
    hen hfr
  by_cases h1 : en_prob det text > fr_prob det text ∧
      en_prob det text > cfg.min_confidence
  · rw [if_pos h1] at key
    refine ⟨by simp [key, h1], ?_, ?_⟩
    · rw [key]
      constructor
      · intro h; exact absurd h (by simp)
      · intro h2; exact absurd h2.1 (not_lt.mpr (le_of_lt h1.1))
    · intro hc1 _
      exact absurd h1.2 (not_lt.mpr hc1)
  · rw [if_neg h1] at key
    by_cases h2 : fr_prob det text > en_prob det text ∧
        fr_prob det text > cfg.min_confidence
    · rw [if_pos h2] at key
      refine ⟨by simp [key, h1], by simp [key, h2], ?_⟩
      intro _ hc2
      exact absurd h2.2 (not_lt.mpr hc2)
    · rw [if_neg h2] at key
      refine ⟨by simp [key, h1], by simp [key, h2], ?_⟩
      intro _ _
      rw [is_missing_translation_eq]
      by_cases hraw : text.length < cfg.min_text_length
      · rw [if_pos hraw]
      · rw [if_neg hraw, if_pos (Or.inl key), key]

/-- Claim C3 witness: detector best guess `"de"`, probabilities
`en ↦ 0.3`, `fr ↦ 0.2`, threshold `0.6`: neither probability exceeds the
threshold, so the verdict is `(false, none)`. -/
theorem C3_probability_fallback_witness :
    is_missing_translation ⟨4, 6/10, []⟩
      ⟨fun _ => Except.ok "de", fun _ => [⟨"en", 3/10⟩, ⟨"fr", 2/10⟩]⟩
      "Guten Morgen" = (false, none) :=
  (C3_probability_fallback ⟨4, 6/10, []⟩
      ⟨fun _ => Except.ok "de", fun _ => [⟨"en", 3/10⟩, ⟨"fr", 2/10⟩]⟩
      "Guten Morgen" "de" (by decide) (by decide) rfl (by decide)
      (by decide)).2.2 (by simp [en_prob, List.find?]; norm_num)
      (by simp [fr_prob, List.find?]; norm_num)

/-- Claim C6: a text whose normalized (trimmed, lowercased) length is below
`min_text_length` short-circuits to the indeterminate verdict
`(false, none)`. -/
theorem C6_short_text (cfg : OcrConfig) (det : LangDetector) (text : String)
    (h : (pyNormalize text).length < cfg.min_text_length) :
    is_missing_translation cfg det text = (false, none) := by
  rw [is_missing_translation_eq]
  by_cases hraw : text.length < cfg.min_text_length
  · rw [if_pos hraw]
  · have hdl : detect_language cfg det text = none := by
      unfold detect_language
      rw [if_pos h]
    rw [if_neg hraw, if_pos (Or.inl hdl), hdl]

/-- Claim C6 witness: with `min_text_length = 4` the text `"OK"` yields
`(false, none)` even for a detector that confidently answers English. -/
theorem C6_short_text_witness :
    is_missing_translation ⟨4, 6/10, []⟩
      ⟨fun _ => Except.ok "en", fun _ => [⟨"en", 1⟩]⟩ "OK" = (false, none) :=
  C6_short_text _ _ _ (by decide)

/-- Claim C7: with target language `fr`, a text of sufficient normalized
length that is not in the allow-list and whose single best detector guess
is English is classified as a missing translation `(true, "en")`. -/
theorem C7_foreign_detection (cfg : OcrConfig) (det : LangDetector)
    (text : String)
    (hlen : cfg.min_text_length ≤ (pyNormalize text).length)
    (hmem : pyNormalize text ∉ cfg.allowed_terms)
    (hdet : det.detect text = Except.ok "en") :
    is_missing_translation cfg det text = (true, some "en") := by
  have hle := pyNormalize_length_le text
  have hdl : detect_language cfg det text = some "en" := by
    unfold detect_language
    rw [if_neg (by omega), if_neg hmem, hdet]
    rfl
  rw [is_missing_translation_eq, if_neg (by omega), hdl]
  simp [hmem]

/-- Claim C7 witness: the text `"Settings"` with an (empty) allow-list not
containing it, and a detector that returns English, yields
`(true, "en")`. -/
theorem C7_foreign_detection_witness :
    is_missing_translation ⟨4, 6/10, []⟩
      ⟨fun _ => Except.ok "en", fun _ => [⟨"en", 99/100⟩]⟩ "Settings" =
      (true, some "en") :=
  C7_foreign_detection _ _ _ (by decide) (by decide) rfl

/-- Claim C9: classification is deterministic — the verdict is a function
of the input text, the configuration, and the detection primitive's output
on that text, so two runs whose (seeded) primitives answer identically on
the text produce identical verdicts. -/
theorem C9_determinism (cfg : OcrConfig) (det1 det2 : LangDetector)
    (text : String)
    (hdet : det1.detect text = det2.detect text)
    (hprob : det1.get_probabilities text = det2.get_probabilities text) :
    is_missing_translation cfg det1 text = is_missing_translation cfg det2 text := by
  have hdl : detect_language cfg det1 text = detect_language cfg det2 text := by
    unfold detect_language
    rw [hdet]
    unfold en_prob fr_prob
    rw [hprob]
  rw [is_missing_translation_eq, is_missing_translation_eq, hdl]

/-- Claim C9 witness: two syntactically different but extensionally
agreeing detectors classify `"Paramètres du compte"` identically. -/
theorem C9_determinism_witness :
    is_missing_translation ⟨4, 6/10, []⟩
      ⟨fun _ => Except.ok "fr", fun _ => []⟩ "Paramètres du compte" =
    is_missing_translation ⟨4, 6/10, []⟩
      ⟨fun s => if s = "" then Except.error () else Except.ok "fr",
       fun s => if s = "" then [⟨"en", 1⟩] else []⟩ "Paramètres du compte" :=
  C9_determinism _ _ _ _ rfl rfl

/-- Claim C10: every result with `isMissingTranslation = true` carries
resolved language `"en"`, and every result whose resolved language is
`"fr"` or `none` carries `isMissingTranslation = false`. -/
theorem C10_issue_language_invariant (cfg : OcrConfig) (det : LangDetector)
    (text : String) :
    ((is_missing_translation cfg det text).1 = true →
      (is_missing_translation cfg det text).2 = some "en")
    ∧ ((is_missing_translation cfg det text).2 = some "fr" ∨
        (is_missing_translation cfg det text).2 = none →
      (is_missing_translation cfg det text).1 = false) := by
  have hcases : is_missing_translation cfg det text = (false, none) ∨
      is_missing_translation cfg det text = (false, some "fr") ∨
      is_missing_translation cfg det text = (true, some "en") := by
    rw [is_missing_translation_eq]
    by_cases hraw : text.length < cfg.min_text_length
    · rw [if_pos hraw]; left; rfl
    · rw [if_neg hraw]
      by_cases hd : detect_language cfg det text = none ∨
          detect_language cfg det text = some "fr"
      · rw [if_pos hd]
        rcases hd with hd | hd <;> rw [hd]
        · left; rfl
        · right; left; rfl
      · rw [if_neg hd]
        by_cases he : detect_language cfg det text = some "en"
        · rw [if_pos he]
          by_cases ha : pyNormalize text ∈ cfg.allowed_terms
          · rw [if_pos ha]; right; left; rfl
          · rw [if_neg ha]; right; right; rfl
        · rw [if_neg he]; left; rfl
  rcases hcases with h | h | h <;> rw [h] <;> simp

/-- Claim C10 witness: a concrete flagged result is tagged `"en"`. -/
theorem C10_issue_language_invariant_witness :
    (is_missing_translation ⟨4, 6/10, []⟩
      ⟨fun _ => Except.ok "en", fun _ => []⟩ "Settings").2 = some "en" :=
  (C10_issue_language_invariant ⟨4, 6/10, []⟩
      ⟨fun _ => Except.ok "en", fun _ => []⟩ "Settings").1 (by decide)

/-! ## Link discovery (`BrowserController._discover_page_links`)

The anchor elements of the rendered page are modelled by the list of their
`href` attribute values.  URL parsing follows `urllib.parse.urlparse` for
the URL shapes that reach it here (absolute `scheme://netloc/path` URLs). -/

/-- `needle` is a prefix of `hay` (character lists). -/
def isPrefixList : List Char → List Char → Bool
  | [], _ => true
  | _ :: _, [] => false
  | a :: as, b :: bs => a = b && isPrefixList as bs

/-- Python's substring test `needle in hay` on character lists. -/
def containsList (needle : List Char) : List Char → Bool
  | [] => needle.isEmpty
  | c :: cs => isPrefixList needle (c :: cs) || containsList needle cs

/-- Python's substring test `needle in hay` for strings. -/
def strContains (hay needle : String) : Bool :=
  containsList needle.data hay.data

/-- Python's `str.startswith`. -/
def pyStartsWith (s pre : String) : Bool :=
  isPrefixList pre.data s.data

/-- Python's `'c' in s` for a single character. -/
def strContainsChar (s : String) (c : Char) : Bool :=
  s.data.any (fun a => a = c)

/-- Split `cs` at the first occurrence of `pat`, returning the parts before
and after the occurrence. -/
def splitAtInfix (pat : List Char) : List Char → Option (List Char × List Char)
  | [] => if pat.isEmpty then some ([], []) else none
  | c :: cs =>
    if isPrefixList pat (c :: cs) then some ([], (c :: cs).drop pat.length)
    else match splitAtInfix pat cs with
      | some (pre, post) => some (c :: pre, post)
      | none => none

/-- `urllib.parse.urlparse(url).path`: for a URL with a scheme, the portion
after the authority up to any query (`?`) or fragment (`#`). -/
def urlPath (url : String) : String :=
  match splitAtInfix "://".data url.data with
  | some (_, rest) =>
    String.mk ((rest.dropWhile (fun c => c ≠ '/')).takeWhile
      (fun c => c ≠ '?' ∧ c ≠ '#'))
  | none => String.mk (url.data.takeWhile (fun c => c ≠ '?' ∧ c ≠ '#'))

/-- The origin `scheme://netloc` of an absolute URL. -/
def urlOrigin (url : String) : String :=
  match splitAtInfix "://".data url.data with
  | some (pre, rest) =>
    String.mk (pre ++ "://".data ++ rest.takeWhile (fun c => c ≠ '/'))
  | none => ""

/-- `BrowserController._discover_page_links` (browser.py lines 223-270):
one fold step per anchor element's `href` value; surviving paths are added
to `discovered_pages` (a set, modelled as a duplicate-free list). -/
def discover_page_links (base_url : String) (hrefs : List String)
    (discovered_pages : List String) : List String :=
  hrefs.foldl (fun acc href =>
    -- if not href: continue
    if href = "" then acc
    -- skip anchors, mailto, tel, javascript
    else if pyStartsWith href "#" || pyStartsWith href "mailto:" ||
        pyStartsWith href "tel:" || pyStartsWith href "javascript:" then acc
    else
      -- relative URLs: prepend the base URL
      let href1 :=
        if !(pyStartsWith href "http://" || pyStartsWith href "https://") then
          (if pyStartsWith href "/" then base_url ++ href
           else base_url ++ "/" ++ href)
        else href
      -- `if self.base_url in href:` — Python substring containment
      if strContains href1 base_url then
        let path := urlPath href1
        -- skip very long paths or those with query parameters
        if path.length > 100 || strContainsChar href1 '?' then acc
        else if path ∈ acc then acc else acc ++ [path]
      else acc) discovered_pages

/-- Claim C1 (code bug evaluation): the same-origin filter is the Python
substring test `self.base_url in href`, not an origin comparison.  With
base origin `https://example.com`, the foreign-origin link
`https://example.com.evil.com/page` passes the filter and its path is
added to `discovered_pages`, although its origin differs from the base
origin.  The scheme-prefix skip rules themselves do work: `#…`,
`mailto:…`, `tel:…` and `javascript:…` hrefs are never added. -/
theorem C1_origin_filter_bug :
    discover_page_links "https://example.com"
      ["https://example.com.evil.com/page"] [] = ["/page"]
    ∧ urlOrigin "https://example.com.evil.com/page" ≠ "https://example.com"
    ∧ discover_page_links "https://example.com"
      ["#section", "mailto:a@b.c", "tel:123", "javascript:void(0)"] [] =
      [] := by
  refine ⟨by decide, by decide, by decide⟩

/-! ## Modal discovery (`BrowserController.discover_and_process_modals`)

The Playwright page is modelled by the observable state the method reads:
the current URL (`self.page.url`) and whether any modal-container selector
matches a visible element (`_check_modal_container_visibility`).  The
behaviour of the page — what clicking each trigger does, what the Escape
key does, which close controls exist — is an explicit environment of
total functions.  A static page is modelled by per-trigger effects:
clicking trigger `i` always yields container visibility `clickVisible`
and (absolute) URL `clickUrl` (`none` = the URL does not change).
Exceptions during a candidate's probe (element invalidated, click
failure, …) are modelled by the per-trigger flag `raises`, surfacing at
the click, before any state change; navigation (`page.goto`) is modelled
as always succeeding.  A trace of events records the interactions
performed, so that theorems can speak about what was (not) done. -/

/-- The observable Playwright page state. -/
structure PState where
  url : String
  visible : Bool
deriving DecidableEq, Repr

/-- The session state owned by `BrowserController`: the page plus the
session-scoped `visited_modals` set (modelled as a duplicate-free list). -/
structure SessionSt where
  p : PState
  visitedModals : List String
deriving DecidableEq, Repr

/-- Static description of one candidate trigger element: the attributes
read for name derivation, and the page's response to clicking it. -/
structure TriggerSpec where
  text : String
  ariaLabel : Option String
  titleAttr : Option String
  idAttr : Option String
  raises : Bool
  clickVisible : Bool
  clickUrl : Option String
  screenshot : Option String
deriving DecidableEq, Repr

/-- Interactions performed by the modal-discovery pass. -/
inductive MEvent where
  | considered (i : Nat)
  | clicked (i : Nat)
  | escapePressed
  | closeClicked
  | navigated (u : String)
deriving DecidableEq, Repr

/-- The page's response to one entry of the `close_selectors` list in
`_close_modal_or_go_back`: whether a visible close control matches, and
the state after clicking it. -/
structure CloseSpec where
  present : PState → Bool
  after : PState → PState

/-- The page environment for one modal-discovery pass. -/
structure ModalEnv where
  triggers : List TriggerSpec
  escapeEff : PState → PState
  closeAttempts : List CloseSpec
  navVisible : String → Bool

/-- One entry of the returned `modal_results` list (browser.py lines
588-594; `success` is always `True` there, so it is omitted; `ordinal`
is the candidate index `i`, also encoded in the `selector` string). -/
structure ModalResult where
  modal_name : String
  selector : String
  ordinal : Nat
  screenshot_path : String
deriving DecidableEq, Repr

/-- An attribute is recorded in `attr_map` only if its value is truthy
(browser.py lines 538-541): empty strings count as absent. -/
def presentAttr : Option String → Option String
  | some s => if s = "" then none else some s
  | none => none

/-- `c if c.isalnum() or c == '_' else '_'` (browser.py line 557). -/
def sanitizeChar (c : Char) : Char :=
  if c.isAlphanum || c = '_' then c else '_'

/-- `re.sub(r'_+', '_', modal_name)`: collapse runs of underscores
(browser.py line 558). -/
def collapseUnderscores : List Char → List Char
  | [] => []
  | [c] => [c]
  | c1 :: c2 :: cs =>
    if c1 = '_' ∧ c2 = '_' then collapseUnderscores (c2 :: cs)
    else c1 :: collapseUnderscores (c2 :: cs)

/-- Modal-name derivation (browser.py lines 533-558): visible text, then
`aria-label`, then `title`, then `id`, else the ordinal fallback;
sanitized to the identifier alphabet with collapsed underscores. -/
def deriveName (t : TriggerSpec) (i : Nat) : String :=
  let trigger_text := pyStrip t.text
  let modal_name :=
    if trigger_text ≠ "" ∧ trigger_text.length < 30 then
      "Modal_" ++ trigger_text
    else match presentAttr t.ariaLabel with
      | some a => "Modal_" ++ a
      | none => match presentAttr t.titleAttr with
        | some a => "Modal_" ++ a
        | none => match presentAttr t.idAttr with
          | some a => "Modal_" ++ a
          | none => "Modal_" ++ toString (i + 1)
  String.mk (collapseUnderscores (modal_name.data.map sanitizeChar))

/-- `f"Auto-discovered modal trigger #{i+1}"` (browser.py line 590). -/
def mkSelector (i : Nat) : String :=
  "Auto-discovered modal trigger #" ++ toString (i + 1)

/-- `await self.page.goto(u)`: the page navigates to `u`; the container
visibility afterwards is the environment's response for `u`. -/
def goto (env : ModalEnv) (u : String) : PState × List MEvent :=
  (⟨u, env.navVisible u⟩, [MEvent.navigated u])

/-- The page state after `await trigger.click()` and the stabilization
wait (browser.py lines 567-570). -/
def clickedState (t : TriggerSpec) (p : PState) : PState :=
  ⟨t.clickUrl.getD p.url, t.clickVisible⟩

/-- `modal_appeared or url_changed` (browser.py lines 573-577): the
container-visibility flag flipped relative to the pass baseline, or the
URL differs from the one captured at the start of this iteration. -/
def detects (t : TriggerSpec) (initial_modal_state : Bool) (p : PState) :
    Prop :=
  t.clickVisible ≠ initial_modal_state ∨ p.url ≠ (clickedState t p).url

instance (t : TriggerSpec) (b : Bool) (p : PState) :
    Decidable (detects t b p) := by
  unfold detects; infer_instance

/-- The `for selector in close_selectors:` loop of
`_close_modal_or_go_back` (browser.py lines 666-680): click the first
visible close control, re-check, return early once the overlay is closed
and the URL matches; the returned flag records the early return. -/
def tryCloseLoop (orig : String) :
    List CloseSpec → PState → PState × List MEvent × Bool
  | [], p => (p, [], false)
  | a :: rest, p =>
    if a.present p then
      if !(a.after p).visible ∧ (a.after p).url = orig then
        (a.after p, [MEvent.closeClicked], true)
      else
        ((tryCloseLoop orig rest (a.after p)).1,
         MEvent.closeClicked :: (tryCloseLoop orig rest (a.after p)).2.1,
         (tryCloseLoop orig rest (a.after p)).2.2)
    else tryCloseLoop orig rest p

/-- `BrowserController._close_modal_or_go_back` (browser.py lines
634-692): Escape first; if the overlay is gone and the URL is the
original one, done; otherwise try the close selectors; finally
force-navigate back when the URL still differs. -/
def close_modal_or_go_back (env : ModalEnv) (original_url : String)
    (p : PState) : PState × List MEvent :=
  if !(env.escapeEff p).visible ∧ (env.escapeEff p).url = original_url then
    (env.escapeEff p, [MEvent.escapePressed])
  else if (tryCloseLoop original_url env.closeAttempts (env.escapeEff p)).2.2
      then
    ((tryCloseLoop original_url env.closeAttempts (env.escapeEff p)).1,
     MEvent.escapePressed ::
       (tryCloseLoop original_url env.closeAttempts (env.escapeEff p)).2.1)
  else if (tryCloseLoop original_url env.closeAttempts
      (env.escapeEff p)).1.url ≠ original_url then
    ((goto env original_url).1,
     MEvent.escapePressed ::
       ((tryCloseLoop original_url env.closeAttempts (env.escapeEff p)).2.1 ++
         (goto env original_url).2))
  else
    ((tryCloseLoop original_url env.closeAttempts (env.escapeEff p)).1,
     MEvent.escapePressed ::
       (tryCloseLoop original_url env.closeAttempts (env.escapeEff p)).2.1)

/-- The body of the `for i in range(trigger_count):` loop of
`discover_and_process_modals` (browser.py lines 521-604) for a resolved
trigger `t` at index `i`.  `initial_modal_state` is the baseline
container visibility captured before the loop, `current_url` the page URL
captured before the loop; the accumulator carries the results collected
so far, the session state, and the event trace. -/
def probeTrigger (env : ModalEnv) (initial_modal_state : Bool)
    (current_url : String) (acc : List ModalResult × SessionSt × List MEvent)
    (i : Nat) (t : TriggerSpec) :
    List ModalResult × SessionSt × List MEvent :=
  if t.raises then
    -- `except Exception: if self.page.url != current_url: goto(current_url)`
    if acc.2.1.p.url ≠ current_url then
      (acc.1, ⟨(goto env current_url).1, acc.2.1.visitedModals⟩,
       (acc.2.2 ++ [MEvent.considered i]) ++ (goto env current_url).2)
    else (acc.1, acc.2.1, acc.2.2 ++ [MEvent.considered i])
  -- `if modal_name in self.visited_modals: continue`
  else if deriveName t i ∈ acc.2.1.visitedModals then
    (acc.1, acc.2.1, acc.2.2 ++ [MEvent.considered i])
  else if detects t initial_modal_state acc.2.1.p then
    -- screenshot; on success record the result and the visited name;
    -- then `_close_modal_or_go_back(current_page_url)` either way
    (acc.1 ++ (t.screenshot.elim []
       (fun path => [⟨deriveName t i, mkSelector i, i, path⟩])),
     ⟨(close_modal_or_go_back env acc.2.1.p.url
         (clickedState t acc.2.1.p)).1,
      acc.2.1.visitedModals ++
        (t.screenshot.elim [] (fun _ => [deriveName t i]))⟩,
     (acc.2.2 ++ [MEvent.considered i, MEvent.clicked i]) ++
       (close_modal_or_go_back env acc.2.1.p.url
         (clickedState t acc.2.1.p)).2)
  else
    -- no modal detected: proceed directly to the next candidate
    (acc.1, ⟨clickedState t acc.2.1.p, acc.2.1.visitedModals⟩,
     acc.2.2 ++ [MEvent.considered i, MEvent.clicked i])

/-- One iteration of the candidate loop: re-resolve the candidate against
the (static) trigger list — `if i >= len(triggers): break` corresponds to
the `none` case — then probe it. -/
def probeStep (env : ModalEnv) (initial_modal_state : Bool)
    (current_url : String) (acc : List ModalResult × SessionSt × List MEvent)
    (i : Nat) : List ModalResult × SessionSt × List MEvent :=
  match env.triggers.get? i with
  | none => acc
  | some t => probeTrigger env initial_modal_state current_url acc i t

/-- `max_modals = 5` (browser.py line 511). -/
def max_modals : Nat := 5

/-- The candidate loop over a list of indices. -/
def runCandidates (env : ModalEnv) (initial_modal_state : Bool)
    (current_url : String) (idxs : List Nat)
    (acc : List ModalResult × SessionSt × List MEvent) :
    List ModalResult × SessionSt × List MEvent :=
  idxs.foldl (probeStep env initial_modal_state current_url) acc

/-- `BrowserController.discover_and_process_modals` (browser.py lines
483-610): capture the baseline container visibility and the current URL,
then probe `min(len(triggers), max_modals)` candidates in order. -/
def discover_and_process_modals (env : ModalEnv) (st : SessionSt) :
    List ModalResult × SessionSt × List MEvent :=
  runCandidates env st.p.visible st.p.url
    (List.range (min env.triggers.length max_modals)) ([], st, [])

/-! ## Restoration lemmas -/

theorem tryCloseLoop_closed_url (orig : String) (atts : List CloseSpec)
    (p : PState) (h : (tryCloseLoop orig atts p).2.2 = true) :
    (tryCloseLoop orig atts p).1.url = orig := by
  induction atts generalizing p with
  | nil => simp [tryCloseLoop] at h
  | cons a rest ih =>
    unfold tryCloseLoop at h ⊢
    by_cases hp : a.present p
    · rw [if_pos hp] at h ⊢
      by_cases hc : !(a.after p).visible ∧ (a.after p).url = orig
      · rw [if_pos hc]; exact hc.2
      · rw [if_neg hc] at h ⊢
        exact ih _ h
    · rw [if_neg hp] at h ⊢
      exact ih _ h

/-- `_close_modal_or_go_back` always leaves the page at the URL it was
given: every early return requires `self.page.url == original_url`, and
otherwise the final `goto(original_url)` forces it. -/
theorem close_modal_or_go_back_url (env : ModalEnv) (orig : String)
    (p : PState) : (close_modal_or_go_back env orig p).1.url = orig := by
  unfold close_modal_or_go_back
  by_cases h1 : !(env.escapeEff p).visible ∧ (env.escapeEff p).url = orig
  · rw [if_pos h1]; exact h1.2
  · rw [if_neg h1]
    by_cases h2 : (tryCloseLoop orig env.closeAttempts (env.escapeEff p)).2.2
    · rw [if_pos h2]
      exact tryCloseLoop_closed_url _ _ _ h2
    · rw [if_neg h2]
      by_cases h3 : (tryCloseLoop orig env.closeAttempts
          (env.escapeEff p)).1.url ≠ orig
      · rw [if_pos h3]; rfl
      · rw [if_neg h3]
        exact not_not.mp h3

/-- Restoration always begins by pressing Escape. -/
theorem close_modal_or_go_back_escape (env : ModalEnv) (orig : String)
    (p : PState) :
    MEvent.escapePressed ∈ (close_modal_or_go_back env orig p).2 := by
  unfold close_modal_or_go_back
  by_cases h1 : !(env.escapeEff p).visible ∧ (env.escapeEff p).url = orig
  · rw [if_pos h1]; exact List.mem_singleton.mpr rfl
  · rw [if_neg h1]
    by_cases h2 : (tryCloseLoop orig env.closeAttempts (env.escapeEff p)).2.2
    · rw [if_pos h2]; exact List.mem_cons_self _ _
    · rw [if_neg h2]
      by_cases h3 : (tryCloseLoop orig env.closeAttempts
          (env.escapeEff p)).1.url ≠ orig
      · rw [if_pos h3]; exact List.mem_cons_self _ _
      · rw [if_neg h3]; exact List.mem_cons_self _ _

/-! ## Candidate-step lemmas -/

theorem probeStep_some (env : ModalEnv) (b : Bool) (cu : String)
    (acc : List ModalResult × SessionSt × List MEvent) (i : Nat)
    (t : TriggerSpec) (ht : env.triggers.get? i = some t) :
    probeStep env b cu acc i = probeTrigger env b cu acc i t := by
  unfold probeStep
  rw [ht]

/-- A candidate whose click neither flips the container visibility nor
changes the URL, relative to a state at URL `cu`. -/
def succeedsAt (initial_modal_state : Bool) (current_url : String)
    (t : TriggerSpec) : Prop :=
  t.raises = false ∧
  (t.clickVisible ≠ initial_modal_state ∨
    t.clickUrl.getD current_url ≠ current_url) ∧
  t.screenshot.isSome = true

theorem detects_iff (t : TriggerSpec) (b : Bool) (p : PState) (cu : String)
    (h : p.url = cu) :
    detects t b p ↔
      (t.clickVisible ≠ b ∨ t.clickUrl.getD cu ≠ cu) := by
  unfold detects clickedState
  rw [h]
  simp only []
  constructor
  · rintro (h1 | h1)
    · exact Or.inl h1
    · exact Or.inr (Ne.symm h1)
  · rintro (h1 | h1)
    · exact Or.inl h1
    · exact Or.inr (Ne.symm h1)

theorem probeTrigger_url (env : ModalEnv) (b : Bool) (cu : String)
    (acc : List ModalResult × SessionSt × List MEvent) (i : Nat)
    (t : TriggerSpec) (h : acc.2.1.p.url = cu) :
    (probeTrigger env b cu acc i t).2.1.p.url = cu := by
  unfold probeTrigger
  by_cases hr : t.raises
  · rw [if_pos hr, if_neg (fun hne => hne h)]
    exact h
  · rw [if_neg hr]
    by_cases hv : deriveName t i ∈ acc.2.1.visitedModals
    · rw [if_pos hv]; exact h
    · rw [if_neg hv]
      by_cases hd : detects t b acc.2.1.p
      · rw [if_pos hd]
        show (close_modal_or_go_back env acc.2.1.p.url
          (clickedState t acc.2.1.p)).1.url = cu
        rw [close_modal_or_go_back_url]
        exact h
      · rw [if_neg hd]
        show (clickedState t acc.2.1.p).url = cu
        have hne : acc.2.1.p.url = (clickedState t acc.2.1.p).url := by
          by_contra hc
          exact hd (Or.inr hc)
        rw [← hne]
        exact h

theorem probeStep_url (env : ModalEnv) (b : Bool) (cu : String)
    (acc : List ModalResult × SessionSt × List MEvent) (i : Nat)
    (h : acc.2.1.p.url = cu) :
    (probeStep env b cu acc i).2.1.p.url = cu := by
  unfold probeStep
  cases hg : env.triggers.get? i with
  | none => exact h
  | some t => exact probeTrigger_url env b cu acc i t h

theorem probeTrigger_visited_mono (env : ModalEnv) (b : Bool) (cu : String)
    (acc : List ModalResult × SessionSt × List MEvent) (i : Nat)
    (t : TriggerSpec) (x : String) (h : x ∈ acc.2.1.visitedModals) :
    x ∈ (probeTrigger env b cu acc i t).2.1.visitedModals := by
  unfold probeTrigger
  by_cases hr : t.raises
  · rw [if_pos hr]
    by_cases hu : acc.2.1.p.url ≠ cu
    · rw [if_pos hu]; exact h
    · rw [if_neg hu]; exact h
  · rw [if_neg hr]
    by_cases hv : deriveName t i ∈ acc.2.1.visitedModals
    · rw [if_pos hv]; exact h
    · rw [if_neg hv]
      by_cases hd : detects t b acc.2.1.p
      · rw [if_pos hd]
        exact List.mem_append_left _ h
      · rw [if_neg hd]; exact h

theorem probeStep_visited_mono (env : ModalEnv) (b : Bool) (cu : String)
    (acc : List ModalResult × SessionSt × List MEvent) (i : Nat)
    (x : String) (h : x ∈ acc.2.1.visitedModals) :
    x ∈ (probeStep env b cu acc i).2.1.visitedModals := by
  unfold probeStep
  cases hg : env.triggers.get? i with
  | none => exact h
  | some t => exact probeTrigger_visited_mono env b cu acc i t x h

theorem probeTrigger_trace_mono (env : ModalEnv) (b : Bool) (cu : String)
    (acc : List ModalResult × SessionSt × List MEvent) (i : Nat)
    (t : TriggerSpec) (e : MEvent) (h : e ∈ acc.2.2) :
    e ∈ (probeTrigger env b cu acc i t).2.2 := by
  unfold probeTrigger
  by_cases hr : t.raises
  · rw [if_pos hr]
    by_cases hu : acc.2.1.p.url ≠ cu
    · rw [if_pos hu]
      exact List.mem_append_left _ (List.mem_append_left _ h)
    · rw [if_neg hu]; exact List.mem_append_left _ h
  · rw [if_neg hr]
    by_cases hv : deriveName t i ∈ acc.2.1.visitedModals
    · rw [if_pos hv]; exact List.mem_append_left _ h
    · rw [if_neg hv]
      by_cases hd : detects t b acc.2.1.p
      · rw [if_pos hd]
        exact List.mem_append_left _ (List.mem_append_left _ h)
      · rw [if_neg hd]; exact List.mem_append_left _ h

theorem probeStep_trace_mono (env : ModalEnv) (b : Bool) (cu : String)
    (acc : List ModalResult × SessionSt × List MEvent) (i : Nat)
    (e : MEvent) (h : e ∈ acc.2.2) :
    e ∈ (probeStep env b cu acc i).2.2 := by
  unfold probeStep
  cases hg : env.triggers.get? i with
  | none => exact h
  | some t => exact probeTrigger_trace_mono env b cu acc i t e h

theorem probeTrigger_considered (env : ModalEnv) (b : Bool) (cu : String)
    (acc : List ModalResult × SessionSt × List MEvent) (i : Nat)
    (t : TriggerSpec) :
    MEvent.considered i ∈ (probeTrigger env b cu acc i t).2.2 := by
  unfold probeTrigger
  by_cases hr : t.raises
  · rw [if_pos hr]
    by_cases hu : acc.2.1.p.url ≠ cu
    · rw [if_pos hu]
      exact List.mem_append_left _ (List.mem_append_right _ (by simp))
    · rw [if_neg hu]; exact List.mem_append_right _ (by simp)
  · rw [if_neg hr]
    by_cases hv : deriveName t i ∈ acc.2.1.visitedModals
    · rw [if_pos hv]; exact List.mem_append_right _ (by simp)
    · rw [if_neg hv]
      by_cases hd : detects t b acc.2.1.p
      · rw [if_pos hd]
        exact List.mem_append_left _ (List.mem_append_right _ (by simp))
      · rw [if_neg hd]; exact List.mem_append_right _ (by simp)

theorem probeTrigger_results (env : ModalEnv) (b : Bool) (cu : String)
    (acc : List ModalResult × SessionSt × List MEvent) (i : Nat)
    (t : TriggerSpec) :
    (probeTrigger env b cu acc i t).1 = acc.1 ∨
    (t.raises = false ∧ ∃ path, t.screenshot = some path ∧
      (probeTrigger env b cu acc i t).1 =
        acc.1 ++ [⟨deriveName t i, mkSelector i, i, path⟩]) := by
  unfold probeTrigger
  by_cases hr : t.raises
  · rw [if_pos hr]
    by_cases hu : acc.2.1.p.url ≠ cu
    · rw [if_pos hu]; exact Or.inl rfl
    · rw [if_neg hu]; exact Or.inl rfl
  · rw [if_neg hr]
    by_cases hv : deriveName t i ∈ acc.2.1.visitedModals
    · rw [if_pos hv]; exact Or.inl rfl
    · rw [if_neg hv]
      by_cases hd : detects t b acc.2.1.p
      · rw [if_pos hd]
        cases hs : t.screenshot with
        | none => left; simp [hs, Option.elim]
        | some path =>
          right
          refine ⟨Bool.eq_false_iff.mpr hr, path, rfl, ?_⟩
          simp [hs, Option.elim]
      · rw [if_neg hd]; exact Or.inl rfl

/-- A candidate whose derived name is already recorded in
`visited_modals` is skipped without any interaction: no click, no
restoration, no state change, no result. -/
theorem probeTrigger_skip (env : ModalEnv) (b : Bool) (cu : String)
    (acc : List ModalResult × SessionSt × List MEvent) (i : Nat)
    (t : TriggerSpec) (hr : t.raises = false)
    (hv : deriveName t i ∈ acc.2.1.visitedModals) :
    probeTrigger env b cu acc i t =
      (acc.1, acc.2.1, acc.2.2 ++ [MEvent.considered i]) := by
  unfold probeTrigger
  rw [if_neg (by rw [hr]; exact Bool.false_ne_true), if_pos hv]

/-- A candidate (not yet visited, not raising) whose click neither flips
the container visibility relative to the baseline nor changes the URL is
a detection-miss: the probe clicks it and moves on without any
restoration action, and the page state is unchanged except that the
container visibility is re-observed as the baseline value. -/
theorem probeTrigger_miss (env : ModalEnv) (b : Bool) (cu : String)
    (acc : List ModalResult × SessionSt × List MEvent) (i : Nat)
    (t : TriggerSpec) (hr : t.raises = false)
    (hv : deriveName t i ∉ acc.2.1.visitedModals)
    (hvis : t.clickVisible = b)
    (hurl : t.clickUrl.getD acc.2.1.p.url = acc.2.1.p.url) :
    probeTrigger env b cu acc i t =
      (acc.1, ⟨⟨acc.2.1.p.url, t.clickVisible⟩, acc.2.1.visitedModals⟩,
       acc.2.2 ++ [MEvent.considered i, MEvent.clicked i]) := by
  have hnd : ¬ detects t b acc.2.1.p := by
    rintro (h1 | h1)
    · exact h1 hvis
    · exact h1 (by show acc.2.1.p.url = (clickedState t acc.2.1.p).url
                   unfold clickedState
                   simp only []
                   exact hurl.symm)
  unfold probeTrigger
  rw [if_neg (by rw [hr]; exact Bool.false_ne_true), if_neg hv, if_neg hnd]
  unfold clickedState
  rw [hurl]

/-- When a modal (or URL change) is detected, restoration is performed
before the next candidate: the probe's events include the Escape press
that `_close_modal_or_go_back` always begins with. -/
theorem probeTrigger_escape (env : ModalEnv) (b : Bool) (cu : String)
    (acc : List ModalResult × SessionSt × List MEvent) (i : Nat)
    (t : TriggerSpec) (hr : t.raises = false)
    (hv : deriveName t i ∉ acc.2.1.visitedModals)
    (hd : detects t b acc.2.1.p) :
    MEvent.escapePressed ∈ (probeTrigger env b cu acc i t).2.2 := by
  unfold probeTrigger
  rw [if_neg (by rw [hr]; exact Bool.false_ne_true), if_neg hv, if_pos hd]
  exact List.mem_append_right _ (close_modal_or_go_back_escape _ _ _)

/-- If a candidate can succeed from a state at the pass URL, its derived
name is recorded after the step (it either already was visited, or the
step records it together with the result). -/
theorem probeTrigger_success_visited (env : ModalEnv) (b : Bool)
    (cu : String) (acc : List ModalResult × SessionSt × List MEvent)
    (i : Nat) (t : TriggerSpec) (hurl : acc.2.1.p.url = cu)
    (hs : succeedsAt b cu t) :
    deriveName t i ∈ (probeTrigger env b cu acc i t).2.1.visitedModals := by
  by_cases hv : deriveName t i ∈ acc.2.1.visitedModals
  · exact probeTrigger_visited_mono env b cu acc i t _ hv
  · unfold probeTrigger
    rw [if_neg (by rw [hs.1]; exact Bool.false_ne_true), if_neg hv,
      if_pos ((detects_iff t b acc.2.1.p cu hurl).mpr hs.2.1)]
    show deriveName t i ∈ acc.2.1.visitedModals ++
      (t.screenshot.elim [] (fun _ => [deriveName t i]))
    cases hsc : t.screenshot with
    | none => exact absurd hs.2.2 (by rw [hsc]; simp)
    | some path => simp [hsc, Option.elim]

/-- If every candidate that could succeed from the pass URL is already
recorded in `visited_modals`, the step produces no new result. -/
theorem probeTrigger_no_new_result (env : ModalEnv) (b : Bool) (cu : String)
    (acc : List ModalResult × SessionSt × List MEvent) (i : Nat)
    (t : TriggerSpec) (hurl : acc.2.1.p.url = cu)
    (h : succeedsAt b cu t → deriveName t i ∈ acc.2.1.visitedModals) :
    (probeTrigger env b cu acc i t).1 = acc.1 := by
  unfold probeTrigger
  by_cases hr : t.raises
  · rw [if_pos hr]
    by_cases hu : acc.2.1.p.url ≠ cu
    · rw [if_pos hu]
    · rw [if_neg hu]
  · rw [if_neg hr]
    by_cases hv : deriveName t i ∈ acc.2.1.visitedModals
    · rw [if_pos hv]
    · rw [if_neg hv]
      by_cases hd : detects t b acc.2.1.p
      · rw [if_pos hd]
        cases hsc : t.screenshot with
        | none => simp [hsc, Option.elim]
        | some path =>
          exact absurd (h ⟨Bool.eq_false_iff.mpr hr,
            (detects_iff t b acc.2.1.p cu hurl).mp hd, by simp [hsc]⟩) hv
      · rw [if_neg hd]

/-! ## Candidate-loop lemmas -/

theorem probeStep_none (env : ModalEnv) (b : Bool) (cu : String)
    (acc : List ModalResult × SessionSt × List MEvent) (i : Nat)
    (ht : env.triggers.get? i = none) :
    probeStep env b cu acc i = acc := by
  unfold probeStep
  rw [ht]

theorem runCandidates_url (env : ModalEnv) (b : Bool) (cu : String)
    (idxs : List Nat) :
    ∀ acc, acc.2.1.p.url = cu →
    (runCandidates env b cu idxs acc).2.1.p.url = cu := by
  induction idxs with
  | nil => intro acc h; exact h
  | cons j rest ih =>
    intro acc h
    exact ih _ (probeStep_url env b cu acc j h)

theorem runCandidates_visited_mono (env : ModalEnv) (b : Bool) (cu : String)
    (idxs : List Nat) :
    ∀ acc (x : String), x ∈ acc.2.1.visitedModals →
    x ∈ (runCandidates env b cu idxs acc).2.1.visitedModals := by
  induction idxs with
  | nil => intro acc x h; exact h
  | cons j rest ih =>
    intro acc x h
    exact ih _ x (probeStep_visited_mono env b cu acc j x h)

theorem runCandidates_trace_mono (env : ModalEnv) (b : Bool) (cu : String)
    (idxs : List Nat) :
    ∀ acc (e : MEvent), e ∈ acc.2.2 →
    e ∈ (runCandidates env b cu idxs acc).2.2 := by
  induction idxs with
  | nil => intro acc e h; exact h
  | cons j rest ih =>
    intro acc e h
    exact ih _ e (probeStep_trace_mono env b cu acc j e h)

theorem runCandidates_considered (env : ModalEnv) (b : Bool) (cu : String)
    (idxs : List Nat) :
    ∀ acc (i : Nat) (t : TriggerSpec), i ∈ idxs →
    env.triggers.get? i = some t →
    MEvent.considered i ∈ (runCandidates env b cu idxs acc).2.2 := by
  induction idxs with
  | nil => intro acc i t hi; simp at hi
  | cons j rest ih =>
    intro acc i t hi ht
    rcases List.mem_cons.mp hi with h | h
    · subst h
      apply runCandidates_trace_mono env b cu rest
      rw [probeStep_some env b cu acc i t ht]
      exact probeTrigger_considered env b cu acc i t
    · exact ih _ i t h ht

theorem runCandidates_results_nonraising (env : ModalEnv) (b : Bool)
    (cu : String) (idxs : List Nat) :
    ∀ acc,
    (∀ r ∈ acc.1, ∃ t, env.triggers.get? r.ordinal = some t ∧
      t.raises = false) →
    ∀ r ∈ (runCandidates env b cu idxs acc).1,
      ∃ t, env.triggers.get? r.ordinal = some t ∧ t.raises = false := by
  induction idxs with
  | nil => intro acc h; exact h
  | cons j rest ih =>
    intro acc h
    apply ih
    intro r hr
    cases hg : env.triggers.get? j with
    | none =>
      rw [probeStep_none env b cu acc j hg] at hr
      exact h r hr
    | some t =>
      rw [probeStep_some env b cu acc j t hg] at hr
      rcases probeTrigger_results env b cu acc j t with hres |
        ⟨hrf, path, hsc, hres⟩
      · rw [hres] at hr; exact h r hr
      · rw [hres] at hr
        rcases List.mem_append.mp hr with h1 | h1
        · exact h r h1
        · have heq : r = ⟨deriveName t j, mkSelector j, j, path⟩ :=
            List.mem_singleton.mp h1
          subst heq
          exact ⟨t, hg, hrf⟩

theorem runCandidates_success_visited (env : ModalEnv) (b : Bool)
    (cu : String) (idxs : List Nat) :
    ∀ acc, acc.2.1.p.url = cu →
    ∀ (i : Nat) (t : TriggerSpec), i ∈ idxs →
    env.triggers.get? i = some t → succeedsAt b cu t →
    deriveName t i ∈ (runCandidates env b cu idxs acc).2.1.visitedModals := by
  induction idxs with
  | nil => intro acc _ i t hi; simp at hi
  | cons j rest ih =>
    intro acc hurl i t hi ht hs
    rcases List.mem_cons.mp hi with h | h
    · subst h
      apply runCandidates_visited_mono env b cu rest
      rw [probeStep_some env b cu acc i t ht]
      exact probeTrigger_success_visited env b cu acc i t hurl hs
    · exact ih _ (probeStep_url env b cu acc j hurl) i t h ht hs

theorem runCandidates_no_new_results (env : ModalEnv) (b : Bool)
    (cu : String) (idxs : List Nat) :
    ∀ acc, acc.2.1.p.url = cu →
    (∀ i ∈ idxs, ∀ t, env.triggers.get? i = some t → succeedsAt b cu t →
      deriveName t i ∈ acc.2.1.visitedModals) →
    (runCandidates env b cu idxs acc).1 = acc.1 := by
  induction idxs with
  | nil => intro acc _ _; rfl
  | cons j rest ih =>
    intro acc hurl h
    have hstep_res : (probeStep env b cu acc j).1 = acc.1 := by
      cases hg : env.triggers.get? j with
      | none => rw [probeStep_none env b cu acc j hg]
      | some t =>
        rw [probeStep_some env b cu acc j t hg]
        exact probeTrigger_no_new_result env b cu acc j t hurl
          (fun hs => h j (List.mem_cons_self _ _) t hg hs)
    have hrest : (runCandidates env b cu rest (probeStep env b cu acc j)).1 =
        (probeStep env b cu acc j).1 := by
      apply ih
      · exact probeStep_url env b cu acc j hurl
      · intro i hi t ht hs
        exact probeStep_visited_mono env b cu acc j _
          (h i (List.mem_cons_of_mem _ hi) t ht hs)
    calc (runCandidates env b cu (j :: rest) acc).1
        = (runCandidates env b cu rest (probeStep env b cu acc j)).1 := rfl
      _ = (probeStep env b cu acc j).1 := hrest
      _ = acc.1 := hstep_res

/-! ## Concrete pages used by counterexamples and witnesses -/

/-- A trigger whose click does nothing observable (detection-miss). -/
def inertTrigger1 : TriggerSpec :=
  ⟨"Help", none, none, none, false, false, none, some "help.png"⟩

/-- A second detection-miss trigger with a different derived name. -/
def inertTrigger2 : TriggerSpec :=
  ⟨"About", none, none, none, false, false, none, some "about.png"⟩

/-- A trigger that opens a modal (container visibility flips). -/
def modalTrigger : TriggerSpec :=
  ⟨"Open settings", none, none, none, false, true, none, some "settings.png"⟩

/-- A trigger whose probe raises an exception. -/
def raisingTrigger : TriggerSpec :=
  ⟨"Broken", none, none, none, true, false, none, none⟩

/-- The page before the pass: no modal container visible. -/
def demoPage : PState := ⟨"https://app.example.com/page", false⟩

/-- A page whose triggers are both detection-misses; Escape closes any
overlay without navigating. -/
def inertEnv : ModalEnv :=
  ⟨[inertTrigger1, inertTrigger2], fun p => ⟨p.url, false⟩, [],
   fun _ => false⟩

/-- A page with a broken first trigger and a working modal trigger. -/
def mixedEnv : ModalEnv :=
  ⟨[raisingTrigger, modalTrigger], fun p => ⟨p.url, false⟩, [],
   fun _ => false⟩

/-- A fresh session on the demo page. -/
def demoSession : SessionSt := ⟨demoPage, []⟩

/-! ## Modal-discovery claims -/

/-- Claim C4 counterexample: on a page with two detection-miss triggers,
the pass's full event trace is click, click — no Escape press, no close
click, no navigation is performed between the probe of candidate 0 and
the probe of candidate 1, so state restoration is **not** performed for
candidates whose probe detected nothing, contradicting the claim's
"whether or not a modal was detected". -/
theorem C4_counterexample :
    (discover_and_process_modals inertEnv demoSession).2.2 =
      [MEvent.considered 0, MEvent.clicked 0,
       MEvent.considered 1, MEvent.clicked 1]
    ∧ MEvent.escapePressed ∉ (discover_and_process_modals inertEnv
        demoSession).2.2
    ∧ MEvent.closeClicked ∉ (discover_and_process_modals inertEnv
        demoSession).2.2
    ∧ MEvent.navigated "https://app.example.com/page" ∉
        (discover_and_process_modals inertEnv demoSession).2.2 := by
  refine ⟨by decide, by decide, by decide, by decide⟩

/-- Claim C4 (amended): state restoration (Escape, then the prioritized
close selectors, then forced navigation) is performed before the next
candidate only for candidates whose probe detected a modal or a URL
change (any probe exception triggers at most a forced navigation back to
the pass URL); a detection-miss leaves the page state unchanged (with
the container visibility re-observed at its baseline value) and performs
no restoration action; and after a full pass the final page URL equals
the URL captured before the pass began. -/
theorem C4_restoration_amended (env : ModalEnv) (st : SessionSt) :
    (discover_and_process_modals env st).2.1.p.url = st.p.url
    ∧ (∀ (b : Bool) (cu : String)
        (acc : List ModalResult × SessionSt × List MEvent) (i : Nat)
        (t : TriggerSpec), t.raises = false →
        deriveName t i ∉ acc.2.1.visitedModals →
        t.clickVisible = b →
        t.clickUrl.getD acc.2.1.p.url = acc.2.1.p.url →
        probeTrigger env b cu acc i t =
          (acc.1, ⟨⟨acc.2.1.p.url, t.clickVisible⟩, acc.2.1.visitedModals⟩,
           acc.2.2 ++ [MEvent.considered i, MEvent.clicked i]))
    ∧ (∀ (b : Bool) (cu : String)
        (acc : List ModalResult × SessionSt × List MEvent) (i : Nat)
        (t : TriggerSpec), t.raises = false →
        deriveName t i ∉ acc.2.1.visitedModals →
        detects t b acc.2.1.p →
        MEvent.escapePressed ∈ (probeTrigger env b cu acc i t).2.2) := by
  refine ⟨?_, ?_, ?_⟩
  · exact runCandidates_url env st.p.visible st.p.url _ ([], st, []) rfl
  · intro b cu acc i t hr hv hvis hurl
    exact probeTrigger_miss env b cu acc i t hr hv hvis hurl
  · intro b cu acc i t hr hv hd
    exact probeTrigger_escape env b cu acc i t hr hv hd

/-- Claim C4 (amended) witness: on the mixed page the pass returns to the
pass-start URL; a concrete detection-miss probe performs no restoration
action; a concrete detecting probe presses Escape. -/
theorem C4_restoration_amended_witness :
    (discover_and_process_modals mixedEnv demoSession).2.1.p.url =
      "https://app.example.com/page"
    ∧ probeTrigger mixedEnv false "https://app.example.com/page"
        ([], demoSession, []) 0 inertTrigger1 =
        ([], ⟨⟨"https://app.example.com/page", false⟩, []⟩,
         [MEvent.considered 0, MEvent.clicked 0])
    ∧ MEvent.escapePressed ∈ (probeTrigger mixedEnv false
        "https://app.example.com/page" ([], demoSession, []) 1
        modalTrigger).2.2 :=
  ⟨(C4_restoration_amended mixedEnv demoSession).1,
   (C4_restoration_amended mixedEnv demoSession).2.1 false
     "https://app.example.com/page" ([], demoSession, []) 0 inertTrigger1
     rfl (by decide) rfl rfl,
   (C4_restoration_amended mixedEnv demoSession).2.2 false
     "https://app.example.com/page" ([], demoSession, []) 1 modalTrigger
     rfl (by decide) (by decide)⟩

/-- Claim C5: the modal-discovery pass is a total function returning the
(possibly empty) list of successfully discovered modal results; every
candidate index below `min(len(triggers), max_modals)` is considered —
an exception while probing one candidate never aborts the probe of the
remaining candidates — and every returned result stems from a candidate
whose probe did not raise. -/
theorem C5_exception_isolation (env : ModalEnv) (st : SessionSt) :
    (∀ i, i < min env.triggers.length max_modals →
      MEvent.considered i ∈ (discover_and_process_modals env st).2.2)
    ∧ (∀ r ∈ (discover_and_process_modals env st).1,
      ∃ t, env.triggers.get? r.ordinal = some t ∧ t.raises = false) := by
  constructor
  · intro i hi
    have hlen : i < env.triggers.length :=
      lt_of_lt_of_le hi (min_le_left _ _)
    obtain ⟨t, ht⟩ : ∃ t, env.triggers.get? i = some t := by
      rw [List.get?_eq_get hlen]
      exact ⟨_, rfl⟩
    exact runCandidates_considered env st.p.visible st.p.url _ ([], st, [])
      i t (List.mem_range.mpr hi) ht
  · intro r hr
    exact runCandidates_results_nonraising env st.p.visible st.p.url _
      ([], st, []) (by intro r hr; simp at hr) r hr

/-- Claim C5 witness: with a raising first trigger, candidate 1 is still
probed, and the single returned result stems from the non-raising
trigger. -/
theorem C5_exception_isolation_witness :
    MEvent.considered 1 ∈
      (discover_and_process_modals mixedEnv demoSession).2.2
    ∧ ∃ t, mixedEnv.triggers.get?
        (⟨"Modal_Open_settings", "Auto-discovered modal trigger #2", 1,
          "settings.png"⟩ : ModalResult).ordinal = some t ∧
        t.raises = false :=
  ⟨(C5_exception_isolation mixedEnv demoSession).1 1 (by decide),
   (C5_exception_isolation mixedEnv demoSession).2
     ⟨"Modal_Open_settings", "Auto-discovered modal trigger #2", 1,
      "settings.png"⟩ (by decide)⟩

/-- Claim C8: modal deduplication is idempotent.  A candidate whose
derived name is in `visited_modals` is skipped without interaction; and
probing the same static page a second time with the persisted
`visited_modals` yields zero new modal results. -/
theorem C8_dedup_idempotent (env : ModalEnv) (st : SessionSt) :
    (discover_and_process_modals env
      ⟨st.p, (discover_and_process_modals env st).2.1.visitedModals⟩).1 = []
    ∧ (∀ (b : Bool) (cu : String)
        (acc : List ModalResult × SessionSt × List MEvent) (i : Nat)
        (t : TriggerSpec), t.raises = false →
        deriveName t i ∈ acc.2.1.visitedModals →
        probeTrigger env b cu acc i t =
          (acc.1, acc.2.1, acc.2.2 ++ [MEvent.considered i])) := by
  constructor
  · apply runCandidates_no_new_results
    · rfl
    · intro i hi t ht hs
      exact runCandidates_success_visited env st.p.visible st.p.url _
        ([], st, []) rfl i t hi ht hs
  · intro b cu acc i t hr hv
    exact probeTrigger_skip env b cu acc i t hr hv

/-- Claim C8 witness: a second pass over the mixed page with the
persisted visited set returns no results, and a concrete visited
candidate is skipped without interaction. -/
theorem C8_dedup_idempotent_witness :
    (discover_and_process_modals mixedEnv
      ⟨demoSession.p, (discover_and_process_modals mixedEnv
        demoSession).2.1.visitedModals⟩).1 = []
    ∧ probeTrigger mixedEnv false "https://app.example.com/page"
        ([], ⟨⟨"https://app.example.com/page", false⟩,
          ["Modal_Open_settings"]⟩, []) 1 modalTrigger =
        ([], ⟨⟨"https://app.example.com/page", false⟩,
          ["Modal_Open_settings"]⟩, [MEvent.considered 1]) :=
  ⟨(C8_dedup_idempotent mixedEnv demoSession).1,
   (C8_dedup_idempotent mixedEnv demoSession).2 false
     "https://app.example.com/page"
     ([], ⟨⟨"https://app.example.com/page", false⟩,
       ["Modal_Open_settings"]⟩, []) 1 modalTrigger rfl (by decide)⟩

end Localize
